import Mathlib

/-!
# Verification of the WMS_Manufacture query service

Shallow embedding of the read-only ERP query service
(`apiendpoint/app`): the CQRS write-blocking middleware, pagination
limit validation, the material-requirements computation, dashboard
percentage aggregates, per-handler error mapping, the read-only database
access of the routers, the (uninstalled) mobile rate-limit middleware,
and route dispatch order.  Numeric values that are Python floats or SQL
decimals are modelled as rationals; string formatting of percentages is
elided where only the numeric value matters.
-/

namespace WMS

/-! ## HTTP methods -/

inductive Method
  | GET | POST | PUT | DELETE | PATCH | HEAD | OPTIONS
deriving DecidableEq, Repr

def Method.name : Method → String
  | .GET => "GET"
  | .POST => "POST"
  | .PUT => "PUT"
  | .DELETE => "DELETE"
  | .PATCH => "PATCH"
  | .HEAD => "HEAD"
  | .OPTIONS => "OPTIONS"

/-! ## Settings (`app/core/config.py`, class `Settings`) -/

structure Settings where
  API_PORT : Nat
  COMMAND_PORT : Nat
  ENVIRONMENT : String
deriving DecidableEq, Repr

def settings : Settings :=
  { API_PORT := 2025, COMMAND_PORT := 3108, ENVIRONMENT := "development" }

/-! ## CQRS write-blocking middleware (`app/main.py`, `block_write_operations`)

The middleware inspects only the request method: for POST/PUT/DELETE/PATCH it
short-circuits with a fixed `JSONResponse` (status 405) built from the request
path; for every other method it lets the request continue to `call_next`.
We model it as a function returning `some blockedResponse` exactly when it
short-circuits, and `none` when the request passes through to the handlers. -/

structure CqrsDetails where
  current_service : String
  command_service_url : String
  allowed_methods : List Method
  blocked_methods : List Method
deriving DecidableEq, Repr

structure CqrsBlockBody where
  error : String
  message : String
  details : CqrsDetails
  pattern : String
  solution : String
deriving DecidableEq, Repr

structure BlockedResponse where
  status_code : Nat
  content : CqrsBlockBody
deriving DecidableEq, Repr

def block_write_operations (method : Method) (path : String) : Option BlockedResponse :=
  if method = .POST ∨ method = .PUT ∨ method = .DELETE ∨ method = .PATCH then
    let command_url := "http://localhost:" ++ toString settings.COMMAND_PORT ++ path
    some
      { status_code := 405
        content :=
          { error := "CQRS Violation - Method Not Allowed"
            message := method.name ++ " operations are not permitted on Query Service"
            details :=
              { current_service := "Query Service (Read-Only)"
                command_service_url := command_url
                allowed_methods := [.GET, .OPTIONS]
                blocked_methods := [.POST, .PUT, .DELETE, .PATCH] }
            pattern := "CQRS Architecture"
            solution :=
              "Use Command Service at http://localhost:" ++
                toString settings.COMMAND_PORT } }
  else
    none

/-! ## Claims C1 and C3 -/

/-- C1: every POST/PUT/DELETE/PATCH request, to any path, is short-circuited
by `block_write_operations` with a fixed status-405 response whose body names
the companion command-service URL and the allowed methods, while every GET or
OPTIONS request passes through the middleware (no short-circuit) to the
handlers. -/
theorem write_methods_blocked_reads_pass (method : Method) (path : String) :
    (method = .POST ∨ method = .PUT ∨ method = .DELETE ∨ method = .PATCH →
      ∃ r, block_write_operations method path = some r ∧
        r.status_code = 405 ∧
        r.content.details.command_service_url =
          "http://localhost:" ++ toString settings.COMMAND_PORT ++ path ∧
        r.content.details.allowed_methods = [.GET, .OPTIONS]) ∧
    (method = .GET ∨ method = .OPTIONS →
      block_write_operations method path = none) := by
  constructor
  · rintro (rfl | rfl | rfl | rfl) <;> exact ⟨_, rfl, rfl, rfl, rfl⟩
  · rintro (rfl | rfl) <;> rfl

/-- Witness for `write_methods_blocked_reads_pass` at POST and GET on a
concrete path. -/
theorem write_methods_blocked_reads_pass_witness :
    (∃ r, block_write_operations .POST "/erp/machines" = some r ∧
        r.status_code = 405 ∧
        r.content.details.command_service_url =
          "http://localhost:" ++ toString settings.COMMAND_PORT ++ "/erp/machines" ∧
        r.content.details.allowed_methods = [.GET, .OPTIONS]) ∧
    block_write_operations .GET "/erp/machines" = none :=
  ⟨(write_methods_blocked_reads_pass .POST "/erp/machines").1 (Or.inl rfl),
   (write_methods_blocked_reads_pass .GET "/erp/machines").2 (Or.inl rfl)⟩

/-- C3 counterexample: the claim "every request whose method is not GET
(including HEAD and OPTIONS) receives status 405 with a body identifying the
command-service URL" is false: an OPTIONS request is not short-circuited by
the write-blocking middleware at all. -/
theorem non_get_always_405_claim_false :
    ¬ (∀ (method : Method) (path : String), method ≠ .GET →
        ∃ r, block_write_operations method path = some r ∧
          r.status_code = 405 ∧
          r.content.details.command_service_url =
            "http://localhost:" ++ toString settings.COMMAND_PORT ++ path) := by
  intro h
  obtain ⟨r, hr, -⟩ := h .OPTIONS "/erp/machines" (by decide)
  simp only [block_write_operations] at hr
  exact Option.noConfusion hr

/-- C3 amended: the middleware short-circuits exactly the methods POST, PUT,
DELETE and PATCH, and whenever it short-circuits, the response has status 405
and its body carries the command-service URL for the request path; GET, HEAD
and OPTIONS requests are never short-circuited by it. -/
theorem block_write_operations_characterization :
    (∀ (method : Method) (path : String),
      (block_write_operations method path).isSome =
        (method = .POST ∨ method = .PUT ∨ method = .DELETE ∨ method = .PATCH : Bool)) ∧
    (∀ (method : Method) (path : String) (r : BlockedResponse),
      block_write_operations method path = some r →
        r.status_code = 405 ∧
        r.content.details.command_service_url =
          "http://localhost:" ++ toString settings.COMMAND_PORT ++ path) := by
  constructor
  · intro method path
    cases method <;> rfl
  · intro method path r hr
    by_cases h : method = .POST ∨ method = .PUT ∨ method = .DELETE ∨ method = .PATCH
    · simp only [block_write_operations, if_pos h, Option.some.injEq] at hr
      subst hr
      exact ⟨rfl, rfl⟩
    · simp only [block_write_operations, if_neg h] at hr
      exact Option.noConfusion hr

/-- Witness for `block_write_operations_characterization`: the second
conjunct applied to the concrete DELETE short-circuit. -/
theorem block_write_operations_characterization_witness :
    (block_write_operations .DELETE "/qc/oqc").elim False
      (fun r => r.status_code = 405 ∧
        r.content.details.command_service_url =
          "http://localhost:" ++ toString settings.COMMAND_PORT ++ "/qc/oqc") :=
  (block_write_operations_characterization).2 .DELETE "/qc/oqc" _ rfl

/-! ## Bill of materials and material requirements
(`app/models/erp_models.py` class `BillOfMaterials`;
`app/api/v1/endpoints/erp_query.py` `calculate_material_requirements`)

SQL `Numeric` columns and Python floats are modelled as rationals.  The
`available` inventory sum per child part (`func.sum(... ) .scalar() or 0`) is
modelled as a function from part numbers to rationals. -/

structure BillOfMaterialsRow where
  id : Nat
  parent_part_number : String
  child_part_number : String
  quantity_required : ℚ
  unit_of_measure : String
  scrap_factor : ℚ
  operation_sequence : Nat
  is_active : Bool
deriving DecidableEq, Repr

structure Requirement where
  child_part_number : String
  quantity_required : ℚ
  scrap_factor : ℚ
  total_required : ℚ
  available_quantity : ℚ
  shortage : ℚ
  unit_of_measure : String
  operation_sequence : Nat
deriving DecidableEq, Repr

structure MaterialRequirementsResult where
  parent_part_number : String
  production_quantity : ℚ
  can_produce : Bool
  total_shortage : ℚ
  requirements : List Requirement
deriving DecidableEq, Repr

/-- One iteration of the `for item in bom_items` loop of
`calculate_material_requirements`: required quantity with scrap factor,
available inventory, and shortage clamped at zero by `max(0, ...)`. -/
def requirementOf (available_sum : String → ℚ) (production_quantity : ℚ)
    (item : BillOfMaterialsRow) : Requirement :=
  let required_qty := production_quantity * item.quantity_required * (1 + item.scrap_factor)
  let available := available_sum item.child_part_number
  let shortage := max 0 (required_qty - available)
  { child_part_number := item.child_part_number
    quantity_required := item.quantity_required
    scrap_factor := item.scrap_factor
    total_required := required_qty
    available_quantity := available
    shortage := shortage
    unit_of_measure := item.unit_of_measure
    operation_sequence := item.operation_sequence }

/-- Body of `GET /bom/calculate-requirements`: filter the BOM table to the
active rows of the parent part (404 when empty), build one requirement per
row, accumulate the total shortage, and set `can_produce = (total_shortage == 0)`.
The Python loop appends requirements and adds shortages in the same pass;
map followed by sum computes the identical list and accumulator. -/
def calculate_material_requirements (bom_table : List BillOfMaterialsRow)
    (available_sum : String → ℚ) (parent_part_number : String)
    (production_quantity : ℚ) :
    Except (Nat × String) MaterialRequirementsResult :=
  let bom_items := bom_table.filter
    (fun i => i.parent_part_number == parent_part_number && i.is_active)
  if bom_items.isEmpty then
    .error (404, "BOM not found")
  else
    let requirements := bom_items.map (requirementOf available_sum production_quantity)
    let total_shortage := (requirements.map (fun r => r.shortage)).sum
    .ok
      { parent_part_number := parent_part_number
        production_quantity := production_quantity
        can_produce := total_shortage == 0
        total_shortage := total_shortage
        requirements := requirements }

/-- Two-row demonstration BOM used by concrete witnesses. -/
def demoBom : List BillOfMaterialsRow :=
  [{ id := 1, parent_part_number := "P", child_part_number := "C1",
     quantity_required := 2, unit_of_measure := "pcs", scrap_factor := 1/10,
     operation_sequence := 1, is_active := true },
   { id := 2, parent_part_number := "P", child_part_number := "C2",
     quantity_required := 3, unit_of_measure := "kg", scrap_factor := 0,
     operation_sequence := 2, is_active := true }]

/-- Demonstration on-hand availability used by concrete witnesses. -/
def demoAvail : String → ℚ := fun _ => 100

/-- C2: whenever `calculate_material_requirements` succeeds, every entry of
the result has `shortage ≥ 0`, and `can_produce` is true exactly when the sum
of the per-component shortages is zero. -/
theorem material_requirements_shortage_nonneg_and_can_produce_iff
    (bom_table : List BillOfMaterialsRow) (available_sum : String → ℚ)
    (parent_part_number : String) (production_quantity : ℚ)
    (r : MaterialRequirementsResult)
    (h : calculate_material_requirements bom_table available_sum
      parent_part_number production_quantity = .ok r) :
    (∀ req ∈ r.requirements, 0 ≤ req.shortage) ∧
    (r.can_produce = true ↔ (r.requirements.map (fun q => q.shortage)).sum = 0) := by
  dsimp only [calculate_material_requirements] at h
  split at h
  · exact absurd h (by simp)
  · injection h with h
    subst h
    constructor
    · intro req hreq
      simp only [List.mem_map] at hreq
      obtain ⟨i, -, rfl⟩ := hreq
      exact le_max_left 0 _
    · exact beq_iff_eq

/-- Witness for
`material_requirements_shortage_nonneg_and_can_produce_iff` on the
two-component demonstration BOM. -/
theorem material_requirements_shortage_nonneg_and_can_produce_iff_witness :
    (calculate_material_requirements demoBom demoAvail "P" 10).toOption.elim
      False
      (fun r => (∀ req ∈ r.requirements, 0 ≤ req.shortage) ∧
        (r.can_produce = true ↔ (r.requirements.map (fun q => q.shortage)).sum = 0)) :=
  material_requirements_shortage_nonneg_and_can_produce_iff
    demoBom demoAvail "P" 10 _ rfl

/-- C7: the required quantity of a component is the production quantity times
the per-unit quantity scaled by the scrap factor, its shortage subtracts the
on-hand availability (clamped at zero), the total shortage is the sum of the
per-component shortages, and both `total_shortage` and `can_produce` are
invariant under permutation of the BOM rows. -/
theorem material_requirements_formula_and_order_invariance :
    (∀ (available_sum : String → ℚ) (pq : ℚ) (item : BillOfMaterialsRow),
      (requirementOf available_sum pq item).total_required =
        pq * item.quantity_required * (1 + item.scrap_factor) ∧
      (requirementOf available_sum pq item).shortage =
        max 0 (pq * item.quantity_required * (1 + item.scrap_factor) -
          available_sum item.child_part_number)) ∧
    (∀ (bom_table : List BillOfMaterialsRow) (available_sum : String → ℚ)
        (parent : String) (pq : ℚ) (r : MaterialRequirementsResult),
      calculate_material_requirements bom_table available_sum parent pq = .ok r →
      r.total_shortage = (r.requirements.map (fun q => q.shortage)).sum) ∧
    (∀ (bom₁ bom₂ : List BillOfMaterialsRow) (available_sum : String → ℚ)
        (parent : String) (pq : ℚ) (r₁ r₂ : MaterialRequirementsResult),
      bom₁.Perm bom₂ →
      calculate_material_requirements bom₁ available_sum parent pq = .ok r₁ →
      calculate_material_requirements bom₂ available_sum parent pq = .ok r₂ →
      r₁.total_shortage = r₂.total_shortage ∧ r₁.can_produce = r₂.can_produce) := by
  refine ⟨fun available_sum pq item => ⟨rfl, rfl⟩, ?_, ?_⟩
  · intro bom_table available_sum parent pq r h
    dsimp only [calculate_material_requirements] at h
    split at h
    · exact absurd h (by simp)
    · injection h with h
      subst h
      rfl
  · intro bom₁ bom₂ available_sum parent pq r₁ r₂ hperm h₁ h₂
    dsimp only [calculate_material_requirements] at h₁ h₂
    have hfp := hperm.filter
      (fun i => i.parent_part_number == parent && i.is_active)
    split at h₁
    · exact absurd h₁ (by simp)
    · split at h₂
      · exact absurd h₂ (by simp)
      · injection h₁ with h₁
        injection h₂ with h₂
        subst h₁
        subst h₂
        have hsum :
            (((bom₁.filter (fun i => i.parent_part_number == parent && i.is_active)).map
              (requirementOf available_sum pq)).map (fun q => q.shortage)).sum =
            (((bom₂.filter (fun i => i.parent_part_number == parent && i.is_active)).map
              (requirementOf available_sum pq)).map (fun q => q.shortage)).sum :=
          ((hfp.map (requirementOf available_sum pq)).map (fun q => q.shortage)).sum_eq
        exact ⟨hsum, by simp only [hsum]⟩

/-- Witness for `material_requirements_formula_and_order_invariance`:
the demonstration BOM against its reversal. -/
theorem material_requirements_formula_and_order_invariance_witness :
    demoBom.Perm demoBom.reverse ∧
    ((calculate_material_requirements demoBom demoAvail "P" 10).toOption.map
        (fun r => (r.total_shortage, r.can_produce)) =
      (calculate_material_requirements demoBom.reverse demoAvail "P" 10).toOption.map
        (fun r => (r.total_shortage, r.can_produce))) := by
  refine ⟨(List.reverse_perm demoBom).symm, ?_⟩
  obtain ⟨h1, h2⟩ :=
    material_requirements_formula_and_order_invariance.2.2
      demoBom demoBom.reverse demoAvail "P" 10 _ _
      ((List.reverse_perm demoBom).symm) rfl rfl
  exact congrArg Option.some (Prod.ext h1 h2)

/-! ## Dashboard percentage aggregates
(`app/api/v1/endpoints/erp_query.py` `get_dashboard_summary`;
`app/get/get_qc.py` `get_qc_dashboard_summary`)

Python division raises `ZeroDivisionError` on a zero denominator; we model it
as a fallible operation so that "no division error occurs" is the statement
that the result is always `some`.  Each source expression has the shape
`(num / den * 100) if den > 0 else 0`; the `"{...:.1f}%"` string formatting
and `round(..., 2)` are elided, keeping the numeric value. -/

def checkedDiv (a b : ℚ) : Option ℚ :=
  if b = 0 then none else some (a / b)

/-- The common `(num / den * 100) if den > 0 else 0` shape of all five
aggregate percentage expressions. -/
def guardedPct (num : ℚ) (den : ℕ) : Option ℚ :=
  if 0 < den then (checkedDiv num (den : ℚ)).map (fun x => x * 100) else some 0

/-- `completion_rate` of `get_dashboard_summary`:
`((total_orders - active_orders) / total_orders * 100)` if `total_orders > 0`
else `0`. -/
def completion_rate (total_orders active_orders : ℕ) : Option ℚ :=
  guardedPct ((total_orders : ℚ) - (active_orders : ℚ)) total_orders

/-- `utilization_rate` of `get_dashboard_summary`:
`(active_schedules / total_machines * 100)` if `total_machines > 0` else `0`. -/
def utilization_rate (active_schedules total_machines : ℕ) : Option ℚ :=
  guardedPct (active_schedules : ℚ) total_machines

/-- `oqc_pass_rate` of `get_qc_dashboard_summary`:
`(passed_oqc / total_oqc_inspections * 100) if total_oqc_inspections > 0 else 0`. -/
def oqc_pass_rate (passed_oqc total_oqc_inspections : ℕ) : Option ℚ :=
  guardedPct (passed_oqc : ℚ) total_oqc_inspections

/-- `inspection_pass_rate` of `get_qc_dashboard_summary`. -/
def inspection_pass_rate (passed_inspections total_inspections : ℕ) : Option ℚ :=
  guardedPct (passed_inspections : ℚ) total_inspections

/-- `closure_rate` of the `ncr_summary` in `get_qc_dashboard_summary`:
`(closed_ncrs / total_ncrs * 100) if total_ncrs > 0 else 0`. -/
def ncr_closure_rate (closed_ncrs total_ncrs : ℕ) : Option ℚ :=
  guardedPct (closed_ncrs : ℚ) total_ncrs

lemma guardedPct_isSome (num : ℚ) (den : ℕ) : (guardedPct num den).isSome := by
  rcases Nat.eq_zero_or_pos den with h | h
  · subst h
    rfl
  · simp [guardedPct, checkedDiv, h, Nat.cast_eq_zero, h.ne']

lemma guardedPct_zero (num : ℚ) : guardedPct num 0 = some 0 := rfl

/-- C4: in every aggregate percentage of the two dashboard summaries, a zero
denominator yields the value 0, and the division branch is never evaluated
with a zero denominator — the result is always `some`, i.e. no division error
can occur. -/
theorem dashboard_rates_guarded_against_zero_denominator :
    (∀ t a, (completion_rate t a).isSome ∧ (t = 0 → completion_rate t a = some 0)) ∧
    (∀ s m, (utilization_rate s m).isSome ∧ (m = 0 → utilization_rate s m = some 0)) ∧
    (∀ p t, (oqc_pass_rate p t).isSome ∧ (t = 0 → oqc_pass_rate p t = some 0)) ∧
    (∀ p t, (inspection_pass_rate p t).isSome ∧ (t = 0 → inspection_pass_rate p t = some 0)) ∧
    (∀ c t, (ncr_closure_rate c t).isSome ∧ (t = 0 → ncr_closure_rate c t = some 0)) := by
  refine ⟨fun t a => ⟨guardedPct_isSome _ t, ?_⟩,
    fun s m => ⟨guardedPct_isSome _ m, ?_⟩,
    fun p t => ⟨guardedPct_isSome _ t, ?_⟩,
    fun p t => ⟨guardedPct_isSome _ t, ?_⟩,
    fun c t => ⟨guardedPct_isSome _ t, ?_⟩⟩ <;>
  · rintro rfl
    exact guardedPct_zero _

/-- Witness for `dashboard_rates_guarded_against_zero_denominator` at
concrete counts, with the zero-denominator hypotheses discharged. -/
theorem dashboard_rates_guarded_against_zero_denominator_witness :
    ((completion_rate 0 0).isSome ∧ completion_rate 0 0 = some 0) ∧
    ((utilization_rate 3 0).isSome ∧ utilization_rate 3 0 = some 0) ∧
    ((oqc_pass_rate 0 0).isSome ∧ oqc_pass_rate 0 0 = some 0) ∧
    ((inspection_pass_rate 0 0).isSome ∧ inspection_pass_rate 0 0 = some 0) ∧
    ((ncr_closure_rate 0 0).isSome ∧ ncr_closure_rate 0 0 = some 0) :=
  ⟨⟨(dashboard_rates_guarded_against_zero_denominator.1 0 0).1,
    (dashboard_rates_guarded_against_zero_denominator.1 0 0).2 rfl⟩,
   ⟨(dashboard_rates_guarded_against_zero_denominator.2.1 3 0).1,
    (dashboard_rates_guarded_against_zero_denominator.2.1 3 0).2 rfl⟩,
   ⟨(dashboard_rates_guarded_against_zero_denominator.2.2.1 0 0).1,
    (dashboard_rates_guarded_against_zero_denominator.2.2.1 0 0).2 rfl⟩,
   ⟨(dashboard_rates_guarded_against_zero_denominator.2.2.2.1 0 0).1,
    (dashboard_rates_guarded_against_zero_denominator.2.2.2.1 0 0).2 rfl⟩,
   ⟨(dashboard_rates_guarded_against_zero_denominator.2.2.2.2 0 0).1,
    (dashboard_rates_guarded_against_zero_denominator.2.2.2.2 0 0).2 rfl⟩⟩

/-! ## Pagination limit validation

FastAPI validates a query parameter declared `Query(default, le=bound)` and
rejects out-of-range values with a 422 validation error; a plain
`limit: int = default` parameter accepts any integer, which the handler then
passes unchanged into the SQL `LIMIT`.  `paginated_endpoints` lists, in the
routing prefixes of `app/api/v1/api.py`, every GET endpoint that accepts
`limit`/`offset` or `limit`/`skip` query parameters, with the declaration its
source uses. -/

inductive LimitPolicy
  | boundedLe (bound : Nat)
  | unbounded
deriving DecidableEq, Repr

def validate_limit : LimitPolicy → Int → Except Nat Int
  | .boundedLe b, n => if n ≤ (b : Int) then .ok n else .error 422
  | .unbounded, n => .ok n

structure PaginatedEndpoint where
  path : String
  limit_policy : LimitPolicy
deriving DecidableEq, Repr

def paginated_endpoints : List PaginatedEndpoint :=
  [⟨"/erp/inventory/movements", .boundedLe 1000⟩,
   ⟨"/erp/production/orders", .boundedLe 1000⟩,
   ⟨"/erp/production/output", .boundedLe 1000⟩,
   ⟨"/erp/master/products", .boundedLe 1000⟩,
   ⟨"/warehouse/inventory/balances", .boundedLe 1000⟩,
   ⟨"/warehouse/inventory/movements", .boundedLe 1000⟩,
   ⟨"/warehouse/inventory/reservations", .boundedLe 1000⟩,
   ⟨"/warehouse/inventory/cycle-counts", .boundedLe 1000⟩,
   ⟨"/warehouse/inventory/locations", .boundedLe 1000⟩,
   ⟨"/qc/oqc", .boundedLe 1000⟩,
   ⟨"/qc/inspection-plans", .boundedLe 1000⟩,
   ⟨"/qc/inspection-results", .boundedLe 1000⟩,
   ⟨"/qc/non-conformance", .boundedLe 1000⟩,
   ⟨"/qc/transfer-qc", .boundedLe 1000⟩,
   ⟨"/production-legacy/orders", .unbounded⟩,
   ⟨"/production-legacy/outputs", .unbounded⟩,
   ⟨"/quality-legacy/oqc-records", .unbounded⟩,
   ⟨"/quality-legacy/transfers", .unbounded⟩,
   ⟨"/warehouse-legacy/deliveries", .unbounded⟩,
   ⟨"/warehouse-legacy/returns", .unbounded⟩,
   ⟨"/master-product/", .unbounded⟩]

/-- C5 counterexample: the claim "no paginated GET request with limit > 1000
is served using a limit above 1000" is false: the legacy production orders
endpoint declares `limit: int = 100` with no bound and passes `limit = 1001`
unchanged into the SQL query. -/
theorem limit_clamp_claim_false :
    ¬ (∀ e ∈ paginated_endpoints, ∀ n : Int, 1000 < n →
        ∀ m, validate_limit e.limit_policy n = .ok m → m ≤ 1000) := by
  intro h
  have h1001 := h ⟨"/production-legacy/orders", .unbounded⟩ (by decide)
    1001 (by decide) 1001 rfl
  exact absurd h1001 (by decide)

/-- C5 amended: endpoints whose `limit` parameter is declared
`Query(..., le=1000)` reject any limit above 1000 with a 422 validation
error; the legacy production/quality/warehouse/master-product endpoints
declare a plain `int` limit and serve any limit unchanged.  The third
conjunct pins down exactly which paginated endpoints are unbounded. -/
theorem limit_validation_characterization :
    (∀ e ∈ paginated_endpoints, ∀ n : Int,
      e.limit_policy = .boundedLe 1000 → 1000 < n →
        validate_limit e.limit_policy n = .error 422) ∧
    (∀ e ∈ paginated_endpoints, ∀ n : Int,
      e.limit_policy = .unbounded → validate_limit e.limit_policy n = .ok n) ∧
    (paginated_endpoints.filter (fun e => e.limit_policy == .unbounded)).map
        (fun e => e.path) =
      ["/production-legacy/orders", "/production-legacy/outputs",
       "/quality-legacy/oqc-records", "/quality-legacy/transfers",
       "/warehouse-legacy/deliveries", "/warehouse-legacy/returns",
       "/master-product/"] := by
  refine ⟨?_, ?_, rfl⟩
  · intro e _he n hpol hn
    rw [hpol]
    simp only [validate_limit]
    split
    · exfalso
      push_cast at *
      omega
    · rfl
  · intro e _he n hpol
    rw [hpol]
    rfl

/-- Witness for `limit_validation_characterization`: the OQC listing rejects
limit 1001, the legacy production orders endpoint serves limit 1001. -/
theorem limit_validation_characterization_witness :
    validate_limit (.boundedLe 1000) 1001 = .error 422 ∧
    validate_limit .unbounded 1001 = .ok 1001 :=
  ⟨limit_validation_characterization.1 ⟨"/qc/oqc", .boundedLe 1000⟩
      (by decide) 1001 rfl (by decide),
   limit_validation_characterization.2.1 ⟨"/production-legacy/orders", .unbounded⟩
      (by decide) 1001 rfl⟩

/-! ## Per-handler exception mapping
(`erp_query.py`, `get_qc.py`, `mobile.py`, `production.py`, and the
middleware error catch in `main.py`)

A handler body either returns, raises a fastapi `HTTPException`
(status + detail), or raises any other exception.  Each source file wraps its
handler bodies in a different try/except shape; the legacy `production.py`
handlers have none at all, so their exceptions escape to the
`block_write_operations` middleware, which answers with a generic 500 JSON
body that has no `detail` field. -/

inductive PyExc
  | http (status_code : Nat) (detail : String)
  | internal (msg : String)
deriving DecidableEq, Repr

/-- Python `str(e)`: for a fastapi `HTTPException` this is
`"{status_code}: {detail}"`; for other exceptions, the message. -/
def PyExc.str : PyExc → String
  | .http s d => toString s ++ ": " ++ d
  | .internal m => m

structure HandlerResponse where
  status_code : Nat
  detail : Option String
deriving DecidableEq, Repr

/-- erp_query.py handlers: `except HTTPException: raise` then
`except Exception as e: raise HTTPException(status_code=500, detail=str(e))`. -/
def erpExceptWrap (body : Except PyExc α) : Except PyExc α :=
  match body with
  | .error (.internal m) => .error (.http 500 m)
  | x => x

/-- get_qc.py list handlers: only `except Exception as e:
raise HTTPException(status_code=500, detail=f"{ctx}{str(e)}")`; since
`HTTPException` is a subclass of `Exception`, it too would be caught. -/
def qcExceptWrap (ctx : String) (body : Except PyExc α) : Except PyExc α :=
  match body with
  | .error e => .error (.http 500 (ctx ++ e.str))
  | x => x

/-- get_qc.py single-record handlers (`get_oqc_record`):
`except HTTPException: raise` then `except Exception` with a context
message. -/
def qcExceptWrapKeepHttp (ctx : String) (body : Except PyExc α) : Except PyExc α :=
  match body with
  | .error (.http s d) => .error (.http s d)
  | .error (.internal m) => .error (.http 500 (ctx ++ m))
  | x => x

/-- mobile.py handlers: only `except Exception as e:
raise HTTPException(status_code=500, detail=str(e))` — with no
`except HTTPException: raise` clause, an `HTTPException` raised in the body is
converted to a 500 whose detail is `str(e)`. -/
def mobileExceptWrap (body : Except PyExc α) : Except PyExc α :=
  match body with
  | .error e => .error (.http 500 e.str)
  | x => x

/-- Final response assembly: FastAPI renders a raised `HTTPException` as its
status and detail; an exception escaping every per-handler catch is answered
by the `block_write_operations` middleware with its generic 500 body, which
carries no `detail` field. -/
def renderResponse : Except PyExc α → HandlerResponse
  | .ok _ => { status_code := 200, detail := none }
  | .error (.http s d) => { status_code := s, detail := some d }
  | .error (.internal _) => { status_code := 500, detail := none }

/-- Body of `GET /bom/{parent_part_number}` (`get_bom_by_part`): filter by
parent, drop inactive rows unless `include_inactive`, 404 when nothing is
left (the `order_by(operation_sequence)` reordering is elided). -/
def get_bom_by_part (bom_table : List BillOfMaterialsRow)
    (parent_part_number : String) (include_inactive : Bool) :
    Except PyExc (List BillOfMaterialsRow) :=
  let q := bom_table.filter (fun i => i.parent_part_number == parent_part_number)
  let bom_items := if include_inactive then q else q.filter (fun i => i.is_active)
  if bom_items.isEmpty then
    .error (.http 404 "BOM not found for this part number")
  else
    .ok bom_items

structure OQCRow where
  id : Nat
  part_number : String
deriving DecidableEq, Repr

/-- Body of `GET /qc/oqc/{oqc_id}` (`get_oqc_record`): `.filter(OQC.id ==
oqc_id).first()`, 404 when absent. -/
def get_oqc_record (oqc_table : List OQCRow) (oqc_id : Nat) :
    Except PyExc OQCRow :=
  match oqc_table.find? (fun r => r.id == oqc_id) with
  | none => .error (.http 404 "OQC record not found")
  | some r => .ok r

/-- Body of `GET /orders/{job_order}` in production.py
(`get_production_order_detail`): the aggregate row keyed by `job_order`,
404 when the query returns nothing. -/
def get_production_order_detail (job_orders : List String) (job_order : String) :
    Except PyExc String :=
  if job_orders.contains job_order then
    .ok job_order
  else
    .error (.http 404 "Production order not found")

/-- Body of `GET /mobile/inventory/quick-check`
(`mobile_inventory_quick_check`): raises `HTTPException(400, ...)` inside its
own `try` when neither `barcode` nor `product_id` is given. -/
def mobile_inventory_quick_check_body (barcode product_id : Option String) :
    Except PyExc Unit :=
  if barcode = none ∧ product_id = none then
    .error (.http 400 "Either barcode or product_id is required")
  else
    .ok ()

/-- The full quick-check handler: body wrapped in the mobile.py catch. -/
def mobile_inventory_quick_check (barcode product_id : Option String) :
    HandlerResponse :=
  renderResponse (mobileExceptWrap (mobile_inventory_quick_check_body barcode product_id))

/-- Response of an erp_query.py handler whose body raised an internal
exception with message `m`. -/
def erp_on_internal (m : String) : HandlerResponse :=
  renderResponse (erpExceptWrap (α := Unit) (.error (.internal m)))

/-- Response of a get_qc.py list handler (context message `ctx`) whose body
raised an internal exception with message `m`. -/
def qc_list_on_internal (ctx m : String) : HandlerResponse :=
  renderResponse (qcExceptWrap (α := Unit) ctx (.error (.internal m)))

/-- Response of `get_oqc_record` when its body raised an internal exception. -/
def qc_record_on_internal (m : String) : HandlerResponse :=
  renderResponse (qcExceptWrapKeepHttp (α := Unit)
    "Error retrieving OQC record: " (.error (.internal m)))

/-- Response of a mobile.py handler whose body raised an internal exception. -/
def mobile_on_internal (m : String) : HandlerResponse :=
  renderResponse (mobileExceptWrap (α := Unit) (.error (.internal m)))

/-- Response of a legacy production.py handler (no per-handler try/except)
whose body raised an internal exception: the escape is answered by the
middleware's generic 500. -/
def production_on_internal (m : String) : HandlerResponse :=
  renderResponse (α := Unit) (.error (.internal m))

structure HandlerModel where
  name : String
  on_internal : String → HandlerResponse

/-- The modelled handlers of the service with the response each produces when
its body raises an internal exception. -/
def service_handlers : List HandlerModel :=
  [⟨"erp_query.get_bom_by_part", erp_on_internal⟩,
   ⟨"erp_query.calculate_material_requirements", erp_on_internal⟩,
   ⟨"get_qc.get_oqc_records", qc_list_on_internal "Error retrieving OQC records: "⟩,
   ⟨"get_qc.get_oqc_record", qc_record_on_internal⟩,
   ⟨"mobile.mobile_inventory_quick_check", mobile_on_internal⟩,
   ⟨"production.get_production_orders", production_on_internal⟩,
   ⟨"production.get_production_order_detail", production_on_internal⟩]

/-- C6 counterexample: the claim "every handler converts an internal
exception to HTTP 500 with the exception string as detail" is false: the
legacy production.py handlers have no per-handler catch, so the middleware
answers with a generic 500 body carrying no detail field. -/
theorem error_mapping_claim_false :
    ¬ (∀ h ∈ service_handlers, ∀ m,
        h.on_internal m = { status_code := 500, detail := some m }) := by
  intro hall
  have hmem : HandlerModel.mk "production.get_production_orders"
      production_on_internal ∈ service_handlers :=
    List.mem_cons_of_mem _ (List.mem_cons_of_mem _ (List.mem_cons_of_mem _
      (List.mem_cons_of_mem _ (List.mem_cons_of_mem _ (List.mem_cons_self _ _)))))
  have hb := hall _ hmem "boom"
  exact absurd hb (by decide)

/-- C6 amended: erp_query.py and mobile.py handlers convert internal
exceptions to 500 with the exception string as detail; get_qc.py handlers
prefix a context message; production.py handlers surface a generic
middleware 500 without the exception string; not-found lookups return 404;
and `mobile_inventory_quick_check` converts its own 400 `HTTPException` into
a 500 whose detail is the stringified exception. -/
theorem error_mapping_characterization :
    (∀ m, erp_on_internal m = { status_code := 500, detail := some m }) ∧
    (∀ m, mobile_on_internal m = { status_code := 500, detail := some m }) ∧
    (∀ ctx m, qc_list_on_internal ctx m =
      { status_code := 500, detail := some (ctx ++ m) }) ∧
    (∀ m, qc_record_on_internal m =
      { status_code := 500, detail := some ("Error retrieving OQC record: " ++ m) }) ∧
    (∀ m, production_on_internal m = { status_code := 500, detail := none }) ∧
    (∀ (bom_table : List BillOfMaterialsRow) (parent : String)
        (include_inactive : Bool),
      bom_table.filter (fun i => i.parent_part_number == parent) = [] →
        get_bom_by_part bom_table parent include_inactive =
          .error (.http 404 "BOM not found for this part number")) ∧
    (∀ (oqc_table : List OQCRow) (oqc_id : Nat),
      oqc_table.find? (fun r => r.id == oqc_id) = none →
        get_oqc_record oqc_table oqc_id =
          .error (.http 404 "OQC record not found")) ∧
    (∀ (job_orders : List String) (job_order : String),
      job_orders.contains job_order = false →
        get_production_order_detail job_orders job_order =
          .error (.http 404 "Production order not found")) ∧
    (mobile_inventory_quick_check none none =
      { status_code := 500,
        detail := some "400: Either barcode or product_id is required" }) := by
  refine ⟨fun m => rfl, fun m => rfl, fun ctx m => rfl, fun m => rfl, fun m => rfl,
    ?_, ?_, ?_, rfl⟩
  · intro bom_table parent include_inactive hq
    simp only [get_bom_by_part, hq]
    cases include_inactive <;> rfl
  · intro oqc_table oqc_id hfind
    simp only [get_oqc_record, hfind]
  · intro job_orders job_order hc
    simp only [get_production_order_detail, hc]
    rfl

/-- Witness for `error_mapping_characterization` at concrete inputs, with the
not-found hypotheses discharged on empty tables. -/
theorem error_mapping_characterization_witness :
    erp_on_internal "db gone" = { status_code := 500, detail := some "db gone" } ∧
    production_on_internal "db gone" = { status_code := 500, detail := none } ∧
    get_bom_by_part [] "X-100" false =
      .error (.http 404 "BOM not found for this part number") ∧
    get_oqc_record [] 7 = .error (.http 404 "OQC record not found") ∧
    get_production_order_detail [] "JO-1" =
      .error (.http 404 "Production order not found") :=
  ⟨error_mapping_characterization.1 "db gone",
   error_mapping_characterization.2.2.2.2.1 "db gone",
   error_mapping_characterization.2.2.2.2.2.1 [] "X-100" false rfl,
   error_mapping_characterization.2.2.2.2.2.2.1 [] 7 rfl,
   error_mapping_characterization.2.2.2.2.2.2.2.1 [] "JO-1" rfl⟩

/-! ## Read-only database access
(routers in `erp_query.py`, `production.py`, `get_warehouse.py`, `get_qc.py`)

Every database operation a handler of this service issues is a SQLAlchemy
`db.query(...)` or a raw `SELECT` via `db.execute(text(...))`; none issues an
insert, update or delete (`grep` of the whole app confirms no `db.add`,
`db.commit`, `db.delete`, `db.merge`, `INSERT`, `UPDATE` or `DELETE FROM` in
any handler).  We model a statement by its kind and target table — repeated
reads of the same table within one handler are collapsed — and the database
by its per-table contents, which writes would change and reads leave
untouched. -/

inductive SqlStmt
  | select (table : String)
  | insert (table : String)
  | update (table : String)
  | delete (table : String)
deriving DecidableEq, Repr

def SqlStmt.isRead : SqlStmt → Bool
  | .select _ => true
  | _ => false

def execStmt (db : String → Nat) : SqlStmt → (String → Nat)
  | .select _ => db
  | .insert t => fun u => if u = t then db u + 1 else db u
  | .update t => fun u => if u = t then db u + 1 else db u
  | .delete t => fun u => if u = t then db u + 1 else db u

def execStmts (db : String → Nat) : List SqlStmt → (String → Nat)
  | [] => db
  | s :: rest => execStmts (execStmt db s) rest

structure HandlerDbAccess where
  name : String
  stmts : List SqlStmt
deriving DecidableEq, Repr

/-- The handlers of the query service's routers with the tables each one
reads. -/
def query_service_handlers : List HandlerDbAccess :=
  [⟨"erp_query.get_inventory_locations", [.select "inventory_locations"]⟩,
   ⟨"erp_query.get_inventory_balances",
     [.select "inventory_balances", .select "inventory_locations"]⟩,
   ⟨"erp_query.get_inventory_movements", [.select "inventory_movements"]⟩,
   ⟨"erp_query.get_production_orders", [.select "production_orders"]⟩,
   ⟨"erp_query.get_production_schedules",
     [.select "production_schedules", .select "machines"]⟩,
   ⟨"erp_query.get_production_output", [.select "output_mc"]⟩,
   ⟨"erp_query.get_bom_by_part", [.select "bill_of_materials"]⟩,
   ⟨"erp_query.calculate_material_requirements",
     [.select "bill_of_materials", .select "inventory_balances"]⟩,
   ⟨"erp_query.get_machines", [.select "machines"]⟩,
   ⟨"erp_query.get_dashboard_summary",
     [.select "production_orders", .select "machines",
      .select "production_schedules", .select "inventory_locations",
      .select "inventory_balances", .select "inventory_movements"]⟩,
   ⟨"erp_query.get_master_products", [.select "master_prod"]⟩,
   ⟨"production.get_production_orders",
     [.select "production_orders", .select "output_mc"]⟩,
   ⟨"production.get_production_order_detail",
     [.select "production_orders", .select "output_mc"]⟩,
   ⟨"production.get_production_status_summary",
     [.select "production_orders", .select "output_mc"]⟩,
   ⟨"production.get_machine_outputs",
     [.select "output_mc", .select "production_orders"]⟩,
   ⟨"production.get_daily_output_summary", [.select "output_mc"]⟩,
   ⟨"production.get_wip_stock",
     [.select "stock_wip", .select "production_orders"]⟩,
   ⟨"production.get_production_dashboard",
     [.select "production_orders", .select "output_mc", .select "stock_wip"]⟩,
   ⟨"production.get_machine_utilization", [.select "production_orders"]⟩,
   ⟨"production.search_production_data",
     [.select "production_orders", .select "output_mc"]⟩,
   ⟨"get_warehouse.get_inventory_balances",
     [.select "inventory_balances", .select "inventory_locations"]⟩,
   ⟨"get_warehouse.get_inventory_summary",
     [.select "inventory_balances", .select "inventory_locations"]⟩,
   ⟨"get_warehouse.get_inventory_by_zone",
     [.select "inventory_balances", .select "inventory_locations"]⟩,
   ⟨"get_warehouse.get_inventory_movements", [.select "inventory_movements"]⟩,
   ⟨"get_warehouse.get_movement_summary", [.select "inventory_movements"]⟩,
   ⟨"get_warehouse.get_daily_movements", [.select "inventory_movements"]⟩,
   ⟨"get_warehouse.get_stock_reservations", [.select "stock_reservations"]⟩,
   ⟨"get_warehouse.get_reservations_summary", [.select "stock_reservations"]⟩,
   ⟨"get_warehouse.get_cycle_counts", [.select "cycle_counts"]⟩,
   ⟨"get_warehouse.get_cycle_count_details", [.select "cycle_count_details"]⟩,
   ⟨"get_warehouse.get_variance_summary",
     [.select "cycle_count_details", .select "cycle_counts"]⟩,
   ⟨"get_warehouse.get_inventory_locations", [.select "inventory_locations"]⟩,
   ⟨"get_warehouse.get_location_utilization",
     [.select "inventory_locations", .select "inventory_balances"]⟩,
   ⟨"get_warehouse.get_abc_analysis",
     [.select "inventory_balances", .select "inventory_movements"]⟩,
   ⟨"get_warehouse.get_slow_moving_inventory",
     [.select "inventory_balances", .select "inventory_locations",
      .select "inventory_movements"]⟩,
   ⟨"get_warehouse.get_stock_alerts",
     [.select "inventory_balances", .select "inventory_locations"]⟩,
   ⟨"get_warehouse.get_inventory_dashboard",
     [.select "inventory_balances", .select "inventory_locations",
      .select "inventory_movements", .select "stock_reservations",
      .select "cycle_counts"]⟩,
   ⟨"get_qc.get_oqc_records", [.select "oqc"]⟩,
   ⟨"get_qc.get_oqc_record", [.select "oqc"]⟩,
   ⟨"get_qc.get_inspection_plans", [.select "qc_inspection_plans"]⟩,
   ⟨"get_qc.get_inspection_plan", [.select "qc_inspection_plans"]⟩,
   ⟨"get_qc.get_inspection_results", [.select "qc_inspection_results"]⟩,
   ⟨"get_qc.get_non_conformance_reports", [.select "qc_non_conformance"]⟩,
   ⟨"get_qc.get_qc_dashboard_summary",
     [.select "oqc", .select "qc_inspection_results",
      .select "qc_non_conformance"]⟩,
   ⟨"get_qc.get_transfer_qc_records", [.select "transfer_qc"]⟩]

lemma execStmt_of_read (db : String → Nat) (s : SqlStmt)
    (h : s.isRead = true) : execStmt db s = db := by
  cases s with
  | select t => rfl
  | insert t => exact absurd h (by simp [SqlStmt.isRead])
  | update t => exact absurd h (by simp [SqlStmt.isRead])
  | delete t => exact absurd h (by simp [SqlStmt.isRead])

lemma execStmts_of_reads (l : List SqlStmt)
    (hl : ∀ s ∈ l, s.isRead = true) (db : String → Nat) :
    execStmts db l = db := by
  induction l generalizing db with
  | nil => rfl
  | cons s rest ih =>
    have hs : execStmt db s = db :=
      execStmt_of_read db s (hl s (List.mem_cons_self _ _))
    simp only [execStmts, hs]
    exact ih (fun x hx => hl x (List.mem_cons_of_mem _ hx)) db

/-- C8: every handler of the query service issues only `select` statements,
so for every request the database state after the response equals the state
before it. -/
theorem query_service_read_only :
    ∀ h ∈ query_service_handlers,
      (∀ s ∈ h.stmts, s.isRead = true) ∧
      ∀ db : String → Nat, execStmts db h.stmts = db := by
  have hall : (query_service_handlers.all
      (fun h => h.stmts.all SqlStmt.isRead)) = true := rfl
  rw [List.all_eq_true] at hall
  intro h hmem
  have hs := hall h hmem
  rw [List.all_eq_true] at hs
  exact ⟨hs, fun db => execStmts_of_reads _ hs db⟩

/-- Witness for `query_service_read_only`: the inventory-locations handler on
a concrete database leaves it unchanged. -/
theorem query_service_read_only_witness :
    execStmts (fun _ => 0) [SqlStmt.select "inventory_locations"] = (fun _ => 0) :=
  (query_service_read_only
    ⟨"erp_query.get_inventory_locations", [.select "inventory_locations"]⟩
    (List.mem_cons_self _ _)).2 (fun _ => 0)

/-! ## Mobile rate limiting
(`app/middleware/mobile_middleware.py` `MobileRateLimitMiddleware`;
`app/main.py` middleware registration)

`MobileRateLimitMiddleware.dispatch` keeps an in-memory dict
`self.request_counts : device_id → list of timestamps` (modelled as an
association list; `time.time()` floats as rationals).  For a request whose
path starts with `/mobile` it first drops timestamps older than 60 seconds,
stores the cleaned list, answers 429 when the cleaned count has reached
`requests_per_minute` (default 100) — without counting the rejected request —
and otherwise appends the current time.  Other paths are untouched. -/

/-- Python `path.startswith(head)`, computed structurally on the character
lists of the two strings. -/
def startswith (path head : String) : Bool :=
  head.data.isPrefixOf path.data

abbrev RequestCounts := List (String × List ℚ)

def getCounts (st : RequestCounts) (device_id : String) : List ℚ :=
  match st.find? (fun p => p.1 == device_id) with
  | some p => p.2
  | none => []

def setCounts (st : RequestCounts) (device_id : String) (ts : List ℚ) :
    RequestCounts :=
  if st.any (fun p => p.1 == device_id) then
    st.map (fun p => if p.1 == device_id then (p.1, ts) else p)
  else
    st ++ [(device_id, ts)]

def rateLimitDispatch (requests_per_minute : Nat) (st : RequestCounts)
    (path device_id : String) (current_time : ℚ) :
    Option Nat × RequestCounts :=
  if startswith path "/mobile" then
    let cleaned := (getCounts st device_id).filter
      (fun req_time => current_time - req_time < 60)
    if requests_per_minute ≤ cleaned.length then
      (some 429, setCounts st device_id cleaned)
    else
      (none, setCounts st device_id (cleaned ++ [current_time]))
  else
    (none, st)

/-- The middleware actually registered on the FastAPI app in `app/main.py`:
the inline `mobile_optimization_middleware` and `block_write_operations`
decorators, `CORSMiddleware`, and `TrustedHostMiddleware` only when
`ENVIRONMENT == "production"`.  `MobileRateLimitMiddleware` (and the class
`MobileOptimizationMiddleware`) from `mobile_middleware.py` are defined but
never added to the app. -/
inductive AppMiddleware
  | mobileOptimization
  | cors
  | blockWrite
  | trustedHost
  | mobileRateLimit
deriving DecidableEq, Repr

def installed_middlewares (environment : String) : List AppMiddleware :=
  [.mobileOptimization, .cors, .blockWrite] ++
    (if environment = "production" then [.trustedHost] else [])

/-- Response status of the running app to a request: of the installed
middleware only `block_write_operations` can short-circuit (the inline mobile
middleware only adds headers, CORS passes ordinary GET requests, trusted-host
passes allowed hosts); otherwise the handler's status is returned.  No
rate-limit state exists, so the app's behaviour per request is stateless. -/
def app_status (method : Method) (path : String) (handler_status : Nat) : Nat :=
  match block_write_operations method path with
  | some r => r.status_code
  | none => handler_status

def app_statuses (requests : List (Method × String)) (handler_status : Nat) :
    List Nat :=
  requests.map (fun r => app_status r.1 r.2 handler_status)

/-- C9: the running service applies no rate limiting — the rate-limit
middleware is not registered in any environment, so a burst of 101 GET
requests to `/mobile/dashboard` from one device within the same minute is
served normally (all 200, none 429), although `MobileRateLimitMiddleware`,
had it been installed, would answer 429 to the 101st request (last conjunct:
its dispatch on a state holding 100 timestamps from the preceding 60 seconds
rejects). -/
theorem mobile_rate_limit_not_installed_burst_served :
    AppMiddleware.mobileRateLimit ∉ installed_middlewares "development" ∧
    AppMiddleware.mobileRateLimit ∉ installed_middlewares "production" ∧
    app_statuses (List.replicate 101 (Method.GET, "/mobile/dashboard")) 200 =
      List.replicate 101 200 ∧
    (rateLimitDispatch 100 [("device-1", List.replicate 100 0)]
        "/mobile/dashboard" "device-1" 0).1 = some 429 := by
  refine ⟨by decide, by decide, ?_, ?_⟩
  · simp [app_statuses, List.map_replicate, app_status, block_write_operations]
  · have hsw : startswith "/mobile/dashboard" "/mobile" = true := by decide
    have hfilter :
        (List.replicate 100 (0 : ℚ)).filter (fun req_time => (0 : ℚ) - req_time < 60) =
          List.replicate 100 0 := by
      rw [List.filter_eq_self]
      intro a ha
      rw [List.eq_of_mem_replicate ha]
      norm_num
    simp [rateLimitDispatch, getCounts, hsw, hfilter]

/-- Behaviour of `MobileRateLimitMiddleware.dispatch` itself, matching the
in-code description ("100 requests per minute", keyed by device identifier):
non-`/mobile` paths are never limited and leave the state unchanged, and a
`/mobile` request is rejected with 429 exactly when at least
`requests_per_minute` counted requests of that device lie within the
preceding 60 seconds.  The counter starts empty (`self.request_counts = {}`),
so it resets with the process. -/
theorem rateLimitDispatch_characterization
    (rpm : Nat) (st : RequestCounts) (path device_id : String) (now : ℚ) :
    (startswith path "/mobile" = false →
      rateLimitDispatch rpm st path device_id now = (none, st)) ∧
    (startswith path "/mobile" = true →
      ((rateLimitDispatch rpm st path device_id now).1 = some 429 ↔
        rpm ≤ ((getCounts st device_id).filter
          (fun req_time => now - req_time < 60)).length)) ∧
    getCounts [] device_id = [] := by
  refine ⟨?_, ?_, rfl⟩
  · intro hp
    simp [rateLimitDispatch, hp]
  · intro hp
    simp only [rateLimitDispatch, hp, if_true]
    split
    · rename_i hle
      simpa using hle
    · rename_i hlt
      simp only [not_le] at hlt
      constructor
      · intro hcontra
        exact absurd hcontra (by simp)
      · intro hle
        omega

/-- Witness for `rateLimitDispatch_characterization`: a non-mobile path is
untouched and a mobile request against an empty counter is not rejected. -/
theorem rateLimitDispatch_characterization_witness :
    rateLimitDispatch 100 [] "/erp/machines" "device-1" 0 = (none, []) ∧
    ((rateLimitDispatch 100 [] "/mobile/dashboard" "device-1" 0).1 = some 429 ↔
      100 ≤ ((getCounts [] "device-1").filter
        (fun req_time => (0 : ℚ) - req_time < 60)).length) :=
  ⟨(rateLimitDispatch_characterization 100 [] "/erp/machines" "device-1" 0).1
      (by decide),
   (rateLimitDispatch_characterization 100 [] "/mobile/dashboard" "device-1" 0).2.1
      (by decide)⟩

/-! ## Route registration order and dispatch
(`app/api/v1/endpoints/erp_query.py`, router decorators in file order)

Starlette matches routes in registration order; a `{name}` path segment
matches any single non-empty segment.  We model a path as its list of
segments and dispatch as first-match over the router's route list. -/

inductive Seg
  | lit (s : String)
  | param (name : String)
deriving DecidableEq, Repr

def matchPath : List Seg → List String → Option (List (String × String))
  | [], [] => some []
  | .lit s :: ps, x :: xs => if s = x then matchPath ps xs else none
  | .param n :: ps, x :: xs => (matchPath ps xs).map (fun b => (n, x) :: b)
  | _, _ => none

structure Route where
  pattern : List Seg
  handler : String
deriving DecidableEq, Repr

def dispatch : List Route → List String → Option (String × List (String × String))
  | [], _ => none
  | r :: rest, path =>
    match matchPath r.pattern path with
    | some binds => some (r.handler, binds)
    | none => dispatch rest path

/-- The GET routes of the erp_query router, in registration (file) order:
`/bom/{parent_part_number}` is registered before `/bom/calculate-requirements`. -/
def erp_routes : List Route :=
  [⟨[.lit "inventory", .lit "locations"], "get_inventory_locations"⟩,
   ⟨[.lit "inventory", .lit "balances"], "get_inventory_balances"⟩,
   ⟨[.lit "inventory", .lit "movements"], "get_inventory_movements"⟩,
   ⟨[.lit "production", .lit "orders"], "get_production_orders"⟩,
   ⟨[.lit "production", .lit "schedules"], "get_production_schedules"⟩,
   ⟨[.lit "production", .lit "output"], "get_production_output"⟩,
   ⟨[.lit "bom", .param "parent_part_number"], "get_bom_by_part"⟩,
   ⟨[.lit "bom", .lit "calculate-requirements"], "calculate_material_requirements"⟩,
   ⟨[.lit "machines"], "get_machines"⟩,
   ⟨[.lit "dashboard", .lit "summary"], "get_dashboard_summary"⟩,
   ⟨[.lit "master", .lit "products"], "get_master_products"⟩]

lemma dispatch_handler_mem (routes : List Route) (p : List String)
    (h : String) (b : List (String × String))
    (hd : dispatch routes p = some (h, b)) : h ∈ routes.map Route.handler := by
  induction routes with
  | nil => exact absurd hd (by simp [dispatch])
  | cons r rest ih =>
    simp only [dispatch] at hd
    split at hd
    · simp only [Option.some.injEq, Prod.mk.injEq] at hd
      obtain ⟨h1, -⟩ := hd
      subst h1
      exact List.mem_cons_self _ _
    · exact List.mem_cons_of_mem _ (ih hd)

lemma dispatch_append_some (l₁ l₂ : List Route) (p : List String)
    (r : String × List (String × String)) (h : dispatch l₁ p = some r) :
    dispatch (l₁ ++ l₂) p = some r := by
  induction l₁ with
  | nil => exact absurd h (by simp [dispatch])
  | cons q rest ih =>
    rw [List.cons_append]
    simp only [dispatch] at h ⊢
    cases hm : matchPath q.pattern p with
    | some b =>
      rw [hm] at h
      exact h
    | none =>
      rw [hm] at h
      exact ih h

lemma dispatch_append_none (l₁ l₂ : List Route) (p : List String)
    (h : dispatch l₁ p = none) :
    dispatch (l₁ ++ l₂) p = dispatch l₂ p := by
  induction l₁ with
  | nil => rfl
  | cons q rest ih =>
    rw [List.cons_append]
    simp only [dispatch] at h ⊢
    cases hm : matchPath q.pattern p with
    | some b =>
      rw [hm] at h
      exact absurd h (by simp)
    | none =>
      rw [hm] at h
      exact ih h

/-- Any path rejected by the parameterized `/bom/{name}` pattern is also
rejected by a literal `/bom/x` pattern: the parameter segment matches every
segment the literal could. -/
lemma bom_param_shadows_lit (p : List String) (n s : String)
    (h : matchPath [.lit "bom", .param n] p = none) :
    matchPath [.lit "bom", .lit s] p = none := by
  match p with
  | [] => rfl
  | [a] =>
    simp only [matchPath] at h ⊢
    split
    · rfl
    · rfl
  | a :: x :: xs =>
    simp only [matchPath] at h ⊢
    split
    · rename_i hba
      rw [if_pos hba] at h
      cases xs with
      | nil => exact absurd h (by simp [matchPath])
      | cons y ys => simp [matchPath]
    · rfl

/-- C10: the parameterized BOM route is registered first, so a GET for path
`/bom/calculate-requirements` is dispatched to `get_bom_by_part` with
`parent_part_number` bound to the literal string `"calculate-requirements"`,
and no path whatsoever dispatches to `calculate_material_requirements`. -/
theorem bom_calculate_requirements_route_shadowed :
    dispatch erp_routes ["bom", "calculate-requirements"] =
      some ("get_bom_by_part", [("parent_part_number", "calculate-requirements")]) ∧
    ∀ p : List String,
      (dispatch erp_routes p).map Prod.fst ≠ some "calculate_material_requirements" := by
  constructor
  · rfl
  · intro p hcontra
    rcases hd : dispatch erp_routes p with - | r
    · rw [hd] at hcontra
      exact absurd hcontra (by simp)
    rw [hd] at hcontra
    simp only [Option.map_some', Option.some.injEq] at hcontra
    have hsplit : erp_routes =
        (erp_routes.take 6) ++
          (⟨[.lit "bom", .param "parent_part_number"], "get_bom_by_part"⟩ ::
            ⟨[.lit "bom", .lit "calculate-requirements"],
              "calculate_material_requirements"⟩ ::
            erp_routes.drop 8) := rfl
    rw [hsplit] at hd
    cases hpre : dispatch (erp_routes.take 6) p with
    | some q =>
      rw [dispatch_append_some _ _ p q hpre] at hd
      injection hd with hd
      have hmem := dispatch_handler_mem _ p q.1 q.2 (by rw [hpre])
      rw [hd, hcontra] at hmem
      exact absurd hmem (by decide)
    | none =>
      rw [dispatch_append_none _ _ p hpre] at hd
      cases hm : matchPath [.lit "bom", .param "parent_part_number"] p with
      | some b =>
        have hfirst :
            dispatch
              (⟨[.lit "bom", .param "parent_part_number"], "get_bom_by_part"⟩ ::
                ⟨[.lit "bom", .lit "calculate-requirements"],
                  "calculate_material_requirements"⟩ ::
                erp_routes.drop 8) p = some ("get_bom_by_part", b) := by
          simp [dispatch, hm]
        rw [hfirst] at hd
        injection hd with hd
        rw [← hd] at hcontra
        have hgb : ("get_bom_by_part" : String) = "calculate_material_requirements" :=
          hcontra
        exact absurd hgb (by decide)
      | none =>
        have hcalc := bom_param_shadows_lit p "parent_part_number"
          "calculate-requirements" hm
        have hstep :
            dispatch
              (⟨[.lit "bom", .param "parent_part_number"], "get_bom_by_part"⟩ ::
                ⟨[.lit "bom", .lit "calculate-requirements"],
                  "calculate_material_requirements"⟩ ::
                erp_routes.drop 8) p = dispatch (erp_routes.drop 8) p := by
          simp [dispatch, hm, hcalc]
        rw [hstep] at hd
        have hmem := dispatch_handler_mem _ p r.1 r.2 (by rw [hd])
        rw [hcontra] at hmem
        exact absurd hmem (by decide)

end WMS
